import Mathlib

/-!
Shallow embedding of the pi-led-racer repository:
`ws2812_led_control.py` (the `WS2812Controller` strip-driver facade) and
`arcade_button_reader.py` (the polling button edge detector).

Python integers are modelled as `Int` (arbitrary precision); the hardware
strip is modelled as a pixel buffer together with an event trace recording
every `setPixelColor` call (pixel index and color) and every `show` flush,
so that claims about flush counts, write order and write safety can be
stated.  Fixed-duration sleeps are irrelevant to state and are dropped.
Time-bounded loops (`random_colors`, `police_lights`) take the number of
iterations the wall-clock loop performs as an explicit parameter, and the
random source of `random_colors` is an explicit function argument.
-/

namespace PiLedRacer

/-- An RGB triple, one Python `int` per channel. -/
abbrev Color := Int × Int × Int

/-- One observable interaction with the underlying `rpi_ws281x` strip:
a pixel write issued via `strip.setPixelColor`, or a `strip.show` flush. -/
inductive Ev where
  | write (i : Nat) (c : Color)
  | flush
deriving DecidableEq

/-- The underlying `rpi_ws281x.PixelStrip`: its pixel buffer, its own
brightness register, and the trace of writes and flushes issued to it. -/
structure Strip where
  pixels : List Color
  stripBrightness : Int
  log : List Ev
deriving DecidableEq

/-- Method `strip.setPixelColor(i, color)`: writes the buffer slot `i` and records
the write in the trace. -/
def Strip.setPixelColor (s : Strip) (i : Nat) (c : Color) : Strip :=
  { s with pixels := s.pixels.set i c, log := s.log ++ [Ev.write i c] }

/-- Method `strip.show()`: flushes the buffer to the hardware; recorded in the
trace. -/
def Strip.showStrip (s : Strip) : Strip :=
  { s with log := s.log ++ [Ev.flush] }

/-- Method `strip.setBrightness(b)`: updates the strip's brightness register. -/
def Strip.setBrightnessStrip (s : Strip) (b : Int) : Strip :=
  { s with stripBrightness := b }

/-- Number of `show` flushes recorded in a trace. -/
def flushCount (l : List Ev) : Nat := l.count Ev.flush

/-- The `WS2812Controller` facade: LED count, the facade's own
`self.brightness` field, and the wrapped strip. -/
structure WS2812Controller where
  led_count : Nat
  brightness : Int
  strip : Strip
deriving DecidableEq

namespace WS2812Controller

/-- Constructor `WS2812Controller.__init__`: stores `led_count` and `brightness`
unchanged (the constructor performs no clamping) and builds the strip,
whose buffer the library initialises to all zeros. -/
def init (led_count : Nat) (brightness : Int) : WS2812Controller :=
  { led_count := led_count
    brightness := brightness
    strip := { pixels := List.replicate led_count (0, 0, 0)
               stripBrightness := brightness
               log := [] } }

/-- Method `set_pixel(pixel_id, color)`: guarded write — only issued to the strip
when `0 <= pixel_id < self.led_count`, otherwise a silent no-op. -/
def set_pixel (st : WS2812Controller) (pixel_id : Int) (c : Color) :
    WS2812Controller :=
  if 0 ≤ pixel_id ∧ pixel_id < (st.led_count : Int) then
    { st with strip := st.strip.setPixelColor pixel_id.toNat c }
  else st

/-- Method `set_all_pixels(color)`: writes every slot `0 .. led_count-1` directly
through `strip.setPixelColor`. -/
def set_all_pixels (st : WS2812Controller) (c : Color) : WS2812Controller :=
  { st with strip :=
      (List.range st.led_count).foldl (fun s i => s.setPixelColor i c) st.strip }

/-- The body `self.strip.show()` as it appears inside facade methods. -/
def stripShow (st : WS2812Controller) : WS2812Controller :=
  { st with strip := st.strip.showStrip }

/-- The facade method `show()`: just `self.strip.show()`. -/
def show' (st : WS2812Controller) : WS2812Controller := st.stripShow

/-- Method `clear()`: `self.set_all_pixels((0,0,0))` then `self.strip.show()`. -/
def clear (st : WS2812Controller) : WS2812Controller :=
  (st.set_all_pixels (0, 0, 0)).stripShow

/-- Method `set_brightness(brightness)`: clamps to `[0,255]`, stores the clamped
value in `self.brightness` and forwards it to the strip. -/
def set_brightness (st : WS2812Controller) (brightness : Int) :
    WS2812Controller :=
  let b := max 0 (min 255 brightness)
  { st with brightness := b, strip := st.strip.setBrightnessStrip b }

/-- Method `color_wipe(color, wait_ms)`: for each `i` in `range(led_count)`,
`set_pixel(i, color)` then `strip.show()` (the sleep is dropped). -/
def color_wipe (st : WS2812Controller) (c : Color) : WS2812Controller :=
  (List.range st.led_count).foldl
    (fun s (i : Nat) => ((s.set_pixel (i : Int) c)).stripShow) st

/-- Python `range(0, n, 3)` as a list. -/
def range3 (n : Nat) : List Nat := (List.range ((n + 2) / 3)).map (fun k => 3 * k)

/-- Method `theater_chase(color, wait_ms, iterations)`: for each iteration and each
offset `q` in `0..2`, light every third pixel at offset `q` via
`set_pixel(i+q, color)`, flush, then blank the same pixels. -/
def theater_chase (st : WS2812Controller) (c : Color) (iterations : Nat) :
    WS2812Controller :=
  (List.range iterations).foldl (fun s _ =>
    (List.range 3).foldl (fun s q =>
      let s1 := (range3 s.led_count).foldl
        (fun t (i : Nat) => t.set_pixel ((i : Int) + (q : Int)) c) s
      let s2 := s1.stripShow
      (range3 s2.led_count).foldl
        (fun t (i : Nat) => t.set_pixel ((i : Int) + (q : Int)) (0, 0, 0)) s2) s) st

/-- The three-band color wheel `wheel(pos)`, exactly as in the source. -/
def wheel (pos : Int) : Color :=
  if pos < 85 then (pos * 3, 255 - pos * 3, 0)
  else if pos < 170 then (255 - (pos - 85) * 3, 0, (pos - 85) * 3)
  else (0, (pos - 170) * 3, 255 - (pos - 170) * 3)

/-- The wheel argument `(i + j) & 255` computed inside `rainbow`. -/
def rainbowPos (i j : Nat) : Nat := (i + j) &&& 255

/-- The wheel argument `(int(i * 256 / led_count) + j) & 255` computed inside
`rainbow_cycle` (the exact float division is modelled as integer floor
division; the claims depend only on the trailing `& 255` mask). -/
def rainbowCyclePos (n i j : Nat) : Nat := (i * 256 / n + j) &&& 255

/-- Method `rainbow(wait_ms, iterations)`: `256 * iterations` frames; frame `j`
sets pixel `i` to `wheel((i + j) & 255)` then flushes. -/
def rainbow (st : WS2812Controller) (iterations : Nat) : WS2812Controller :=
  (List.range (256 * iterations)).foldl (fun s j =>
    ((List.range s.led_count).foldl
      (fun t (i : Nat) => t.set_pixel (i : Int) (wheel ((rainbowPos i j : Nat) : Int))) s).stripShow) st

/-- Method `rainbow_cycle(wait_ms, iterations)`: `256 * iterations` frames; frame
`j` sets pixel `i` to `wheel((int(i*256/led_count) + j) & 255)` then
flushes. -/
def rainbow_cycle (st : WS2812Controller) (iterations : Nat) :
    WS2812Controller :=
  (List.range (256 * iterations)).foldl (fun s j =>
    ((List.range s.led_count).foldl
      (fun t (i : Nat) =>
        t.set_pixel (i : Int) (wheel ((rainbowCyclePos s.led_count i j : Nat) : Int))) s).stripShow) st

/-- Python `range(0, 255, 5)`: the fade-in brightness levels. -/
def fadeInLevels : List Int := (List.range 51).map (fun k => 5 * (k : Int))

/-- Python `range(255, 0, -5)`: the fade-out brightness levels. -/
def fadeOutLevels : List Int := (List.range 51).map (fun k => 255 - 5 * (k : Int))

/-- Method `breathing_effect(color, cycles)`: per cycle, fade brightness in then
out, each step doing `set_brightness`, `set_all_pixels`, `strip.show()`;
finally `set_brightness(255)`. -/
def breathing_effect (st : WS2812Controller) (c : Color) (cycles : Nat) :
    WS2812Controller :=
  let body := fun (t : WS2812Controller) (b : Int) =>
    ((t.set_brightness b).set_all_pixels c).stripShow
  let st1 := (List.range cycles).foldl (fun s _ =>
    fadeOutLevels.foldl body (fadeInLevels.foldl body s)) st
  st1.set_brightness 255

/-- Method `random_colors(duration)`: the wall-clock `while` loop runs some number
`frames` of iterations; each frame sets every pixel to a color drawn from
the random source `rand` (frame, pixel ↦ color) and flushes. -/
def random_colors (st : WS2812Controller) (frames : Nat)
    (rand : Nat → Nat → Color) : WS2812Controller :=
  (List.range frames).foldl (fun s f =>
    ((List.range s.led_count).foldl
      (fun t (i : Nat) => t.set_pixel (i : Int) (rand f i)) s).stripShow) st

/-- Method `police_lights(duration)` — the alternating-colors routine: each
wall-clock iteration shows all-red, all-off, all-blue, all-off, flushing
after each fill. -/
def police_lights (st : WS2812Controller) (frames : Nat) : WS2812Controller :=
  (List.range frames).foldl (fun s _ =>
    ((((((((s.set_all_pixels (255, 0, 0)).stripShow).set_all_pixels
      (0, 0, 0)).stripShow).set_all_pixels (0, 0, 255)).stripShow).set_all_pixels
      (0, 0, 0)).stripShow)) st

end WS2812Controller

/-- A press/release event reported by the arcade button reader. -/
inductive BEvent where
  | pressed
  | released
deriving DecidableEq

/-- One step of the edge detector in `arcade_button_reader.main`
(`HIGH = true`, `LOW = false`): pressed on HIGH→LOW, released on LOW→HIGH,
otherwise no event. -/
def buttonStep (last cur : Bool) : Option BEvent :=
  if cur = false ∧ last = true then some BEvent.pressed
  else if cur = true ∧ last = false then some BEvent.released
  else none

/-- Runs the edge detector over a sample list, tagging each reported event
with the 1-based position of the sample that produced it. -/
def buttonEventsAux (last : Bool) (samples : List Bool) (idx : Nat) :
    List (Nat × BEvent) :=
  match samples with
  | [] => []
  | cur :: rest =>
    match buttonStep last cur with
    | some e => (idx, e) :: buttonEventsAux cur rest (idx + 1)
    | none => buttonEventsAux cur rest (idx + 1)

/-- The detector as `main` runs it: previous state starts at HIGH. -/
def buttonEvents (samples : List Bool) : List (Nat × BEvent) :=
  buttonEventsAux true samples 1

/-- The facade brightness scalar lies in the byte range `[0,255]`. -/
def brightnessOK (st : WS2812Controller) : Prop :=
  0 ≤ st.brightness ∧ st.brightness ≤ 255

/-- The two states agree on every controller field other than the pixel
buffer and the event trace: LED count, facade brightness, and the strip's
brightness register. -/
def sameCore (a b : WS2812Controller) : Prop :=
  b.led_count = a.led_count ∧ b.brightness = a.brightness
    ∧ b.strip.stripBrightness = a.strip.stripBrightness

/-- An event is a write to a pixel index below `n`, or a flush. -/
def evInRange (n : Nat) : Ev → Prop
  | Ev.write i _ => i < n
  | Ev.flush => True

/-- Every write recorded in the trace targets an index below `n`. -/
def logSafe (n : Nat) (l : List Ev) : Prop := ∀ e ∈ l, evInRange n e

/-- The LED count together with trace-write safety, the invariant carried
through the animation loops. -/
def chaseInv (n : Nat) (s : WS2812Controller) : Prop :=
  s.led_count = n ∧ logSafe n s.strip.log

/-- The trace a color wipe appends: for each index in turn, one write of
the wipe color followed by one flush. -/
def wipeTrace (l : List Nat) (c : Color) : List Ev :=
  l.flatMap (fun i => [Ev.write i c, Ev.flush])

/-- All three channels of the color lie in the byte range `[0,255]`. -/
def colorInRange (c : Color) : Prop :=
  0 ≤ c.1 ∧ c.1 ≤ 255 ∧ 0 ≤ c.2.1 ∧ c.2.1 ≤ 255 ∧ 0 ≤ c.2.2 ∧ c.2.2 ≤ 255

namespace WS2812Controller

/- Helper lemmas shared by the claim theorems. -/

theorem foldl_pres {σ α : Type _} {P : σ → Prop} {f : σ → α → σ}
    (hf : ∀ s a, P s → P (f s a)) :
    ∀ (l : List α) (s : σ), P s → P (l.foldl f s)
  | [], _, h => h
  | a :: l, s, h => foldl_pres hf l (f s a) (hf s a h)

theorem sameCore_rfl (a : WS2812Controller) : sameCore a a := ⟨rfl, rfl, rfl⟩

theorem sameCore_trans {a b c : WS2812Controller} (h1 : sameCore a b)
    (h2 : sameCore b c) : sameCore a c :=
  ⟨h2.1.trans h1.1, h2.2.1.trans h1.2.1, h2.2.2.trans h1.2.2⟩

theorem set_pixel_sameCore (s : WS2812Controller) (i : Int) (c : Color) :
    sameCore s (s.set_pixel i c) := by
  unfold set_pixel
  split
  · exact ⟨rfl, rfl, rfl⟩
  · exact sameCore_rfl s

theorem stripShow_sameCore (s : WS2812Controller) : sameCore s s.stripShow :=
  ⟨rfl, rfl, rfl⟩

theorem foldl_setPixelColor_stripBrightness (c : Color) :
    ∀ (l : List Nat) (s : Strip),
      (l.foldl (fun s i => s.setPixelColor i c) s).stripBrightness
        = s.stripBrightness
  | [], _ => rfl
  | i :: l, s => foldl_setPixelColor_stripBrightness c l (s.setPixelColor i c)

theorem set_all_pixels_sameCore (s : WS2812Controller) (c : Color) :
    sameCore s (s.set_all_pixels c) :=
  ⟨rfl, rfl, foldl_setPixelColor_stripBrightness c _ s.strip⟩

theorem color_wipe_sameCore (st : WS2812Controller) (c : Color) :
    sameCore st (st.color_wipe c) := by
  unfold color_wipe
  exact foldl_pres
    (fun s (i : Nat) hs =>
      sameCore_trans (sameCore_trans hs (set_pixel_sameCore s (i : Int) c))
        (stripShow_sameCore _))
    _ st (sameCore_rfl st)

theorem theater_chase_sameCore (st : WS2812Controller) (c : Color)
    (it : Nat) : sameCore st (st.theater_chase c it) := by
  unfold theater_chase
  refine foldl_pres (fun s _ hs => ?_) _ st (sameCore_rfl st)
  refine foldl_pres (fun t q ht => ?_) _ s hs
  exact foldl_pres
    (fun u i hu => sameCore_trans hu (set_pixel_sameCore u _ _)) _ _
    (sameCore_trans
      (foldl_pres
        (fun u i hu => sameCore_trans hu (set_pixel_sameCore u _ _)) _ _ ht)
      (stripShow_sameCore _))

theorem rainbow_sameCore (st : WS2812Controller) (it : Nat) :
    sameCore st (st.rainbow it) := by
  unfold rainbow
  refine foldl_pres (fun s j hs => ?_) _ st (sameCore_rfl st)
  exact sameCore_trans
    (foldl_pres
      (fun t i ht => sameCore_trans ht (set_pixel_sameCore t _ _)) _ _ hs)
    (stripShow_sameCore _)

theorem rainbow_cycle_sameCore (st : WS2812Controller) (it : Nat) :
    sameCore st (st.rainbow_cycle it) := by
  unfold rainbow_cycle
  refine foldl_pres (fun s j hs => ?_) _ st (sameCore_rfl st)
  exact sameCore_trans
    (foldl_pres
      (fun t i ht => sameCore_trans ht (set_pixel_sameCore t _ _)) _ _ hs)
    (stripShow_sameCore _)

theorem random_colors_sameCore (st : WS2812Controller) (frames : Nat)
    (rand : Nat → Nat → Color) : sameCore st (st.random_colors frames rand) := by
  unfold random_colors
  refine foldl_pres (fun s f hs => ?_) _ st (sameCore_rfl st)
  exact sameCore_trans
    (foldl_pres
      (fun t i ht => sameCore_trans ht (set_pixel_sameCore t _ _)) _ _ hs)
    (stripShow_sameCore _)

theorem police_lights_sameCore (st : WS2812Controller) (frames : Nat) :
    sameCore st (st.police_lights frames) := by
  unfold police_lights
  refine foldl_pres (fun s _ hs => ?_) _ st (sameCore_rfl st)
  exact sameCore_trans (sameCore_trans (sameCore_trans (sameCore_trans
    (sameCore_trans (sameCore_trans (sameCore_trans (sameCore_trans hs
      (set_all_pixels_sameCore s _)) (stripShow_sameCore _))
      (set_all_pixels_sameCore _ _)) (stripShow_sameCore _))
      (set_all_pixels_sameCore _ _)) (stripShow_sameCore _))
      (set_all_pixels_sameCore _ _)) (stripShow_sameCore _)

theorem breathing_effect_core (st : WS2812Controller) (c : Color)
    (cy : Nat) :
    (st.breathing_effect c cy).led_count = st.led_count
    ∧ (st.breathing_effect c cy).brightness = 255
    ∧ (st.breathing_effect c cy).strip.stripBrightness = 255 := by
  unfold breathing_effect
  refine ⟨?_, rfl, rfl⟩
  have hfade : ∀ (l : List Int) (s : WS2812Controller),
      s.led_count = st.led_count →
      (l.foldl
        (fun t b => ((t.set_brightness b).set_all_pixels c).stripShow)
        s).led_count = st.led_count :=
    fun l s hs =>
      foldl_pres (P := fun x => x.led_count = st.led_count)
        (f := fun t b => ((t.set_brightness b).set_all_pixels c).stripShow)
        (fun t b ht => ht) l s hs
  exact foldl_pres (P := fun x => x.led_count = st.led_count)
    (f := fun s (_ : Nat) => fadeOutLevels.foldl
      (fun t b => ((t.set_brightness b).set_all_pixels c).stripShow)
      (fadeInLevels.foldl
        (fun t b => ((t.set_brightness b).set_all_pixels c).stripShow) s))
    (fun s _ hs => hfade fadeOutLevels _ (hfade fadeInLevels s hs)) _ st rfl

theorem logSafe_append {n : Nat} {l1 l2 : List Ev} (h1 : logSafe n l1)
    (h2 : logSafe n l2) : logSafe n (l1 ++ l2) := by
  intro e he
  rcases List.mem_append.mp he with h | h
  · exact h1 e h
  · exact h2 e h

theorem set_pixel_chaseInv {n : Nat} {s : WS2812Controller}
    (h : chaseInv n s) (i : Int) (c : Color) :
    chaseInv n (s.set_pixel i c) := by
  unfold set_pixel
  split
  · rename_i hcond
    refine ⟨h.1, logSafe_append h.2 ?_⟩
    intro e he
    rw [List.mem_singleton] at he
    subst he
    show i.toNat < n
    have hn := h.1
    omega
  · exact h

theorem stripShow_chaseInv {n : Nat} {s : WS2812Controller}
    (h : chaseInv n s) : chaseInv n s.stripShow := by
  refine ⟨h.1, logSafe_append h.2 ?_⟩
  intro e he
  rw [List.mem_singleton] at he
  subst he
  exact trivial

theorem foldl_setPixelColor_log (c : Color) :
    ∀ (l : List Nat) (s : Strip),
      (l.foldl (fun s i => s.setPixelColor i c) s).log
        = s.log ++ l.map (fun i => Ev.write i c)
  | [], s => (List.append_nil s.log).symm
  | i :: l, s => by
    rw [List.foldl_cons, foldl_setPixelColor_log c l]
    show (s.log ++ [Ev.write i c]) ++ _ = _
    rw [List.append_assoc]
    rfl

theorem set_all_pixels_chaseInv {n : Nat} {s : WS2812Controller}
    (h : chaseInv n s) (c : Color) : chaseInv n (s.set_all_pixels c) := by
  refine ⟨h.1, ?_⟩
  show logSafe n ((List.range s.led_count).foldl
    (fun t i => t.setPixelColor i c) s.strip).log
  rw [foldl_setPixelColor_log]
  refine logSafe_append h.2 ?_
  intro e he
  rw [List.mem_map] at he
  obtain ⟨i, hi, rfl⟩ := he
  show i < n
  have hir := List.mem_range.mp hi
  have hn := h.1
  omega

theorem set_brightness_chaseInv {n : Nat} {s : WS2812Controller}
    (h : chaseInv n s) (b : Int) : chaseInv n (s.set_brightness b) := h

theorem color_wipe_chaseInv {n : Nat} {st : WS2812Controller}
    (h : chaseInv n st) (c : Color) : chaseInv n (st.color_wipe c) := by
  unfold color_wipe
  exact foldl_pres (P := chaseInv n)
    (f := fun s (i : Nat) => ((s.set_pixel (i : Int) c)).stripShow)
    (fun s i hs => stripShow_chaseInv (set_pixel_chaseInv hs _ _)) _ st h

theorem theater_chase_chaseInv {n : Nat} {st : WS2812Controller}
    (h : chaseInv n st) (c : Color) (it : Nat) :
    chaseInv n (st.theater_chase c it) := by
  unfold theater_chase
  refine foldl_pres (P := chaseInv n) (fun s _ hs => ?_) _ st h
  refine foldl_pres (P := chaseInv n) (fun t q ht => ?_) _ s hs
  have h1 : chaseInv n
      ((range3 t.led_count).foldl
        (fun u (i : Nat) => u.set_pixel ((i : Int) + (q : Int)) c) t) :=
    foldl_pres (P := chaseInv n)
      (f := fun u (i : Nat) => u.set_pixel ((i : Int) + (q : Int)) c)
      (fun u i hu => set_pixel_chaseInv hu _ _) _ t ht
  exact foldl_pres (P := chaseInv n)
    (f := fun u (i : Nat) => u.set_pixel ((i : Int) + (q : Int)) (0, 0, 0))
    (fun u i hu => set_pixel_chaseInv hu _ _) _ _ (stripShow_chaseInv h1)

theorem rainbow_chaseInv {n : Nat} {st : WS2812Controller}
    (h : chaseInv n st) (it : Nat) : chaseInv n (st.rainbow it) := by
  unfold rainbow
  refine foldl_pres (P := chaseInv n) (fun s j hs => ?_) _ st h
  exact stripShow_chaseInv
    (foldl_pres (P := chaseInv n)
      (f := fun t (i : Nat) =>
        t.set_pixel (i : Int) (wheel ((rainbowPos i j : Nat) : Int)))
      (fun t i ht => set_pixel_chaseInv ht _ _) _ s hs)

theorem rainbow_cycle_chaseInv {n : Nat} {st : WS2812Controller}
    (h : chaseInv n st) (it : Nat) : chaseInv n (st.rainbow_cycle it) := by
  unfold rainbow_cycle
  refine foldl_pres (P := chaseInv n) (fun s j hs => ?_) _ st h
  exact stripShow_chaseInv
    (foldl_pres (P := chaseInv n)
      (f := fun t (i : Nat) =>
        t.set_pixel (i : Int)
          (wheel ((rainbowCyclePos s.led_count i j : Nat) : Int)))
      (fun t i ht => set_pixel_chaseInv ht _ _) _ s hs)

theorem random_colors_chaseInv {n : Nat} {st : WS2812Controller}
    (h : chaseInv n st) (frames : Nat) (rand : Nat → Nat → Color) :
    chaseInv n (st.random_colors frames rand) := by
  unfold random_colors
  refine foldl_pres (P := chaseInv n) (fun s fr hs => ?_) _ st h
  exact stripShow_chaseInv
    (foldl_pres (P := chaseInv n)
      (f := fun t (i : Nat) => t.set_pixel (i : Int) (rand fr i))
      (fun t i ht => set_pixel_chaseInv ht _ _) _ s hs)

theorem police_lights_chaseInv {n : Nat} {st : WS2812Controller}
    (h : chaseInv n st) (frames : Nat) :
    chaseInv n (st.police_lights frames) := by
  unfold police_lights
  refine foldl_pres (P := chaseInv n) (fun s _ hs => ?_) _ st h
  exact stripShow_chaseInv (set_all_pixels_chaseInv (stripShow_chaseInv
    (set_all_pixels_chaseInv (stripShow_chaseInv (set_all_pixels_chaseInv
      (stripShow_chaseInv (set_all_pixels_chaseInv hs _)) _)) _)) _)

theorem breathing_effect_chaseInv {n : Nat} {st : WS2812Controller}
    (h : chaseInv n st) (c : Color) (cy : Nat) :
    chaseInv n (st.breathing_effect c cy) := by
  unfold breathing_effect
  have hbody : ∀ (l : List Int) (s : WS2812Controller), chaseInv n s →
      chaseInv n (l.foldl
        (fun t b => ((t.set_brightness b).set_all_pixels c).stripShow) s) :=
    fun l s hs => foldl_pres (P := chaseInv n)
      (f := fun t b => ((t.set_brightness b).set_all_pixels c).stripShow)
      (fun t b ht => stripShow_chaseInv
        (set_all_pixels_chaseInv (set_brightness_chaseInv ht b) c)) l s hs
  exact set_brightness_chaseInv
    (foldl_pres (P := chaseInv n)
      (f := fun s (_ : Nat) => fadeOutLevels.foldl
        (fun t b => ((t.set_brightness b).set_all_pixels c).stripShow)
        (fadeInLevels.foldl
          (fun t b => ((t.set_brightness b).set_all_pixels c).stripShow) s))
      (fun s _ hs => hbody fadeOutLevels _ (hbody fadeInLevels s hs)) _ st h)
    255

theorem foldl_set_length (c : Color) :
    ∀ (l : List Nat) (p : List Color),
      (l.foldl (fun p k => p.set k c) p).length = p.length
  | [], _ => rfl
  | k :: l, p =>
    (foldl_set_length c l (p.set k c)).trans (List.length_set p k c)

theorem range_foldl_set_getElem (c : Color) (n : Nat) :
    ∀ (p : List Color) (i : Nat),
      ((List.range n).foldl (fun p k => p.set k c) p)[i]? =
        if i < n ∧ i < p.length then some c else p[i]? := by
  induction n with
  | zero =>
    intro p i
    simp
  | succ m ih =>
    intro p i
    rw [List.range_succ, List.foldl_append, List.foldl_cons, List.foldl_nil,
      List.getElem?_set, foldl_set_length, ih]
    split_ifs <;>
      first
        | rfl
        | omega
        | (exact (List.getElem?_eq_none (by omega)).symm)

theorem foldl_setPixelColor_pixels (c : Color) :
    ∀ (l : List Nat) (s : Strip),
      (l.foldl (fun s i => s.setPixelColor i c) s).pixels
        = l.foldl (fun p i => p.set i c) s.pixels
  | [], _ => rfl
  | i :: l, s => foldl_setPixelColor_pixels c l (s.setPixelColor i c)

theorem flushCount_append (l1 l2 : List Ev) :
    flushCount (l1 ++ l2) = flushCount l1 + flushCount l2 :=
  List.count_append Ev.flush l1 l2

theorem flushCount_wipeTrace (c : Color) :
    ∀ l : List Nat, flushCount (wipeTrace l c) = l.length := by
  intro l
  induction l with
  | nil => rfl
  | cons i l ih =>
    show flushCount ([Ev.write i c, Ev.flush] ++ wipeTrace l c) = l.length + 1
    rw [flushCount_append, ih]
    have h1 : flushCount [Ev.write i c, Ev.flush] = 1 := rfl
    omega

theorem wipe_aux (c : Color) (L : Nat) :
    ∀ (l : List Nat), (∀ i ∈ l, i < L) →
    ∀ (st : WS2812Controller), st.led_count = L →
      ((l.foldl (fun s i => (s.set_pixel (i : Int) c).stripShow) st).strip.log
          = st.strip.log ++ wipeTrace l c)
      ∧ ((l.foldl (fun s i => (s.set_pixel (i : Int) c).stripShow) st).strip.pixels
          = l.foldl (fun p i => p.set i c) st.strip.pixels)
      ∧ (l.foldl (fun s i => (s.set_pixel (i : Int) c).stripShow) st).led_count
          = L := by
  intro l
  induction l with
  | nil =>
    intro _ st h
    exact ⟨by simp [wipeTrace], rfl, h⟩
  | cons i l ih =>
    intro hmem st hL
    have hi : i < L := hmem i (List.mem_cons_self i l)
    have hguard : (0 : Int) ≤ (i : Int) ∧ (i : Int) < (st.led_count : Int) := by
      constructor
      · exact Int.natCast_nonneg i
      · omega
    have hlog : ((st.set_pixel (i : Int) c).stripShow).strip.log
        = st.strip.log ++ [Ev.write i c, Ev.flush] := by
      unfold set_pixel stripShow Strip.setPixelColor Strip.showStrip
      rw [if_pos hguard]
      simp
    have hpix : ((st.set_pixel (i : Int) c).stripShow).strip.pixels
        = st.strip.pixels.set i c := by
      unfold set_pixel stripShow Strip.setPixelColor Strip.showStrip
      rw [if_pos hguard]
      simp
    have hled : ((st.set_pixel (i : Int) c).stripShow).led_count = L := by
      rw [(stripShow_sameCore _).1, (set_pixel_sameCore st (i : Int) c).1]
      exact hL
    obtain ⟨e1, e2, e3⟩ :=
      ih (fun j hj => hmem j (List.mem_cons_of_mem i hj))
        ((st.set_pixel (i : Int) c).stripShow) hled
    refine ⟨?_, ?_, e3⟩
    · rw [List.foldl_cons, e1, hlog]
      show _ = st.strip.log ++ ([Ev.write i c, Ev.flush] ++ wipeTrace l c)
      rw [List.append_assoc]
    · rw [List.foldl_cons, e2, hpix]
      rfl

/-- C1: for every position `pos` in `[0,255]`, `wheel` partitions its
domain at breakpoints 0, 85 and 170 into three 85-wide bands, returning
`(pos*3, 255-pos*3, 0)` below 85, `(255-(pos-85)*3, 0, (pos-85)*3)` on
`[85,170)`, and `(0, (pos-170)*3, 255-(pos-170)*3)` from 170 on; in
particular `wheel 0 = (0, 255, 0)`. -/
theorem wheel_three_bands (pos : Int) (h0 : 0 ≤ pos) (h255 : pos ≤ 255) :
    (pos < 85 → wheel pos = (pos * 3, 255 - pos * 3, 0))
    ∧ (85 ≤ pos → pos < 170 →
        wheel pos = (255 - (pos - 85) * 3, 0, (pos - 85) * 3))
    ∧ (170 ≤ pos →
        wheel pos = (0, (pos - 170) * 3, 255 - (pos - 170) * 3))
    ∧ wheel 0 = (0, 255, 0) := by
  refine ⟨fun h => ?_, fun h1 h2 => ?_, fun h => ?_, by decide⟩
  · unfold wheel
    rw [if_pos h]
  · unfold wheel
    rw [if_neg (by omega), if_pos h2]
  · unfold wheel
    rw [if_neg (by omega), if_neg (by omega)]

/-- Witness for `wheel_three_bands`, instantiated in the middle band. -/
theorem wheel_three_bands_witness :
    wheel 100 = (255 - (100 - 85) * 3, 0, (100 - 85) * 3) :=
  (wheel_three_bands 100 (by decide) (by decide)).2.1 (by decide) (by decide)

/-- C2: `set_pixel` with an index outside `[0, led_count)` leaves the
controller (in particular the pixel buffer) unchanged, and with an index
inside the range it writes exactly the given RGB triple at that index,
leaving every other slot untouched. -/
theorem set_pixel_bounds (st : WS2812Controller) (idx : Int) (c : Color) :
    (¬ (0 ≤ idx ∧ idx < (st.led_count : Int)) → st.set_pixel idx c = st)
    ∧ (0 ≤ idx → idx < (st.led_count : Int) →
        st.strip.pixels.length = st.led_count →
        (st.set_pixel idx c).strip.pixels[idx.toNat]? = some c
        ∧ ∀ j : Nat, j ≠ idx.toNat →
            (st.set_pixel idx c).strip.pixels[j]? = st.strip.pixels[j]?) := by
  constructor
  · intro h
    unfold set_pixel
    rw [if_neg h]
  · intro h0 h1 hlen
    have hset : (st.set_pixel idx c).strip.pixels
        = st.strip.pixels.set idx.toNat c := by
      unfold set_pixel Strip.setPixelColor
      rw [if_pos ⟨h0, h1⟩]
    refine ⟨?_, fun j hj => ?_⟩
    · rw [hset]
      exact List.getElem?_set_self (by omega)
    · rw [hset]
      exact List.getElem?_set_ne (Ne.symm hj)

/-- Witness for `set_pixel_bounds`: an out-of-range index is a no-op and
an in-range index stores the triple, on a concrete 5-LED controller. -/
theorem set_pixel_bounds_witness :
    ((init 5 255).set_pixel 9 (1, 2, 3) = init 5 255)
    ∧ ((init 5 255).set_pixel 2 (1, 2, 3)).strip.pixels[2]?
        = some ((1 : Int), 2, 3) :=
  ⟨(set_pixel_bounds (init 5 255) 9 (1, 2, 3)).1 (by decide),
   ((set_pixel_bounds (init 5 255) 2 (1, 2, 3)).2
      (by decide) (by decide) (by decide)).1⟩

end WS2812Controller

/-- C3 counterexample: on the raw sample sequence
`[HIGH, HIGH, LOW, LOW, HIGH]` the detector reports its single "pressed"
event at the third sample (the first LOW), not at the second sample as
the claim states; the "released" event is at the fifth, as claimed. -/
theorem button_press_not_second_sample :
    buttonEvents [true, true, false, false, true]
      = [(3, BEvent.pressed), (5, BEvent.released)]
    ∧ (2, BEvent.pressed) ∉ buttonEvents [true, true, false, false, true] := by
  decide

/-- C3 (amended): on `[HIGH, HIGH, LOW, LOW, HIGH]` the detector reports
exactly one "pressed" event, at the third sample, and exactly one
"released" event, at the fifth sample; in general a step reports
"pressed" exactly on a HIGH-to-LOW transition and "released" exactly on
a LOW-to-HIGH transition of consecutive samples. -/
theorem button_edge_events :
    buttonEvents [true, true, false, false, true]
      = [(3, BEvent.pressed), (5, BEvent.released)]
    ∧ (∀ last cur : Bool,
        buttonStep last cur = some BEvent.pressed
          ↔ (last = true ∧ cur = false))
    ∧ (∀ last cur : Bool,
        buttonStep last cur = some BEvent.released
          ↔ (cur = true ∧ last = false)) := by
  decide

namespace WS2812Controller

/-- C4: `set_brightness` stores the clamp of its argument to `[0,255]`:
above 255 it stores 255 (300 gives 255), below 0 it stores 0 (-5 gives
0), and arguments already in `[0,255]` are stored unchanged. -/
theorem set_brightness_clamps (st : WS2812Controller) (level : Int) :
    (st.set_brightness level).brightness = max 0 (min 255 level)
    ∧ (255 < level → (st.set_brightness level).brightness = 255)
    ∧ (level < 0 → (st.set_brightness level).brightness = 0)
    ∧ (0 ≤ level → level ≤ 255 →
        (st.set_brightness level).brightness = level)
    ∧ (st.set_brightness 300).brightness = 255
    ∧ (st.set_brightness (-5)).brightness = 0 := by
  have hb : ∀ b : Int, (st.set_brightness b).brightness
      = max 0 (min 255 b) := fun _ => rfl
  refine ⟨hb level, fun h => ?_, fun h => ?_, fun h1 h2 => ?_, ?_, ?_⟩
  · rw [hb]; omega
  · rw [hb]; omega
  · rw [hb]; omega
  · rw [hb]; omega
  · rw [hb]; omega

/-- Witness for `set_brightness_clamps`: an in-range level is stored
unchanged on a concrete controller. -/
theorem set_brightness_clamps_witness :
    ((init 1 0).set_brightness 7).brightness = 7 :=
  (set_brightness_clamps (init 1 0) 7).2.2.2.1 (by decide) (by decide)

theorem brightnessOK_of_sameCore {a b : WS2812Controller}
    (h : sameCore a b) (ha : brightnessOK a) : brightnessOK b := by
  unfold brightnessOK at *
  rw [h.2.1]
  exact ha

end WS2812Controller

namespace WS2812Controller

/-- C5 counterexample: the constructor stores its brightness argument
without clamping, so with constructor argument 300 the brightness scalar
is 300, outside `[0,255]`, immediately after construction. -/
theorem init_brightness_unclamped :
    (init 30 300).brightness = 300
    ∧ ¬ ((init 30 300).brightness ≤ 255) := by
  decide

/-- C5 (amended): the brightness scalar is in `[0,255]` after
construction provided the constructor argument is in `[0,255]` (the
constructor stores the argument unclamped), and it remains in `[0,255]`
after every facade operation; `set_brightness` and `breathing_effect`
re-establish it unconditionally. -/
theorem brightness_invariant :
    (∀ (n : Nat) (b : Int), 0 ≤ b → b ≤ 255 → brightnessOK (init n b))
    ∧ (∀ (st : WS2812Controller) (b : Int),
        brightnessOK (st.set_brightness b))
    ∧ (∀ (st : WS2812Controller) (i : Int) (c : Color),
        brightnessOK st → brightnessOK (st.set_pixel i c))
    ∧ (∀ (st : WS2812Controller) (c : Color),
        brightnessOK st → brightnessOK (st.set_all_pixels c))
    ∧ (∀ st : WS2812Controller, brightnessOK st → brightnessOK st.clear)
    ∧ (∀ st : WS2812Controller, brightnessOK st → brightnessOK st.show')
    ∧ (∀ (st : WS2812Controller) (c : Color),
        brightnessOK st → brightnessOK (st.color_wipe c))
    ∧ (∀ (st : WS2812Controller) (c : Color) (it : Nat),
        brightnessOK st → brightnessOK (st.theater_chase c it))
    ∧ (∀ (st : WS2812Controller) (it : Nat),
        brightnessOK st → brightnessOK (st.rainbow it))
    ∧ (∀ (st : WS2812Controller) (it : Nat),
        brightnessOK st → brightnessOK (st.rainbow_cycle it))
    ∧ (∀ (st : WS2812Controller) (c : Color) (cy : Nat),
        brightnessOK (st.breathing_effect c cy))
    ∧ (∀ (st : WS2812Controller) (fr : Nat) (r : Nat → Nat → Color),
        brightnessOK st → brightnessOK (st.random_colors fr r))
    ∧ (∀ (st : WS2812Controller) (fr : Nat),
        brightnessOK st → brightnessOK (st.police_lights fr)) := by
  refine ⟨fun n b h1 h2 => ⟨h1, h2⟩,
    fun st b => ?_,
    fun st i c h => brightnessOK_of_sameCore (set_pixel_sameCore st i c) h,
    fun st c h => brightnessOK_of_sameCore (set_all_pixels_sameCore st c) h,
    fun st h => brightnessOK_of_sameCore
      (sameCore_trans (set_all_pixels_sameCore st (0, 0, 0))
        (stripShow_sameCore _)) h,
    fun st h => brightnessOK_of_sameCore (stripShow_sameCore st) h,
    fun st c h => brightnessOK_of_sameCore (color_wipe_sameCore st c) h,
    fun st c it h =>
      brightnessOK_of_sameCore (theater_chase_sameCore st c it) h,
    fun st it h => brightnessOK_of_sameCore (rainbow_sameCore st it) h,
    fun st it h => brightnessOK_of_sameCore (rainbow_cycle_sameCore st it) h,
    fun st c cy => ?_,
    fun st fr r h =>
      brightnessOK_of_sameCore (random_colors_sameCore st fr r) h,
    fun st fr h => brightnessOK_of_sameCore (police_lights_sameCore st fr) h⟩
  · show (0 : Int) ≤ (st.set_brightness b).brightness
      ∧ (st.set_brightness b).brightness ≤ 255
    have hb : (st.set_brightness b).brightness = max 0 (min 255 b) := rfl
    rw [hb]
    omega
  · show (0 : Int) ≤ (st.breathing_effect c cy).brightness
      ∧ (st.breathing_effect c cy).brightness ≤ 255
    rw [(breathing_effect_core st c cy).2.1]
    omega

/-- Witness for `brightness_invariant`: a guarded write preserves the
byte-range brightness of a concretely constructed controller. -/
theorem brightness_invariant_witness :
    brightnessOK ((init 3 10).set_pixel 0 (1, 1, 1)) :=
  brightness_invariant.2.2.1 (init 3 10) 0 (1, 1, 1) ⟨by decide, by decide⟩

/-- C6: `clear` is exactly `set_all_pixels` with black followed by
`show`, and afterwards every buffer slot below the LED count reads
all-black. -/
theorem clear_equiv (st : WS2812Controller)
    (hlen : st.strip.pixels.length = st.led_count) :
    st.clear = (st.set_all_pixels (0, 0, 0)).show'
    ∧ ∀ i, i < st.led_count →
        st.clear.strip.pixels[i]? = some ((0 : Int), 0, 0) := by
  refine ⟨rfl, fun i hi => ?_⟩
  have hpx : st.clear.strip.pixels
      = (List.range st.led_count).foldl
          (fun p k => p.set k ((0 : Int), (0 : Int), (0 : Int)))
          st.strip.pixels :=
    foldl_setPixelColor_pixels ((0 : Int), (0 : Int), (0 : Int))
      (List.range st.led_count) st.strip
  rw [hpx, range_foldl_set_getElem, if_pos ⟨hi, by omega⟩]

/-- Witness for `clear_equiv` on a concrete 3-LED controller. -/
theorem clear_equiv_witness :
    (init 3 7).clear = ((init 3 7).set_all_pixels (0, 0, 0)).show'
    ∧ (init 3 7).clear.strip.pixels[0]? = some ((0 : Int), 0, 0) :=
  ⟨(clear_equiv (init 3 7) (by decide)).1,
   (clear_equiv (init 3 7) (by decide)).2 0 (by decide)⟩

/-- C7: over a 10-pixel strip, `color_wipe` with red ends with all 10
buffer slots red and exactly 10 flushes; in general it appends to the
trace one write per index in increasing order, each followed by one
flush, flushing exactly `led_count` times, and every slot below the LED
count ends up holding the wipe color. -/
theorem color_wipe_spec (st : WS2812Controller) (c : Color)
    (hlen : st.strip.pixels.length = st.led_count) :
    ((init 10 255).color_wipe (255, 0, 0)).strip.pixels
        = List.replicate 10 ((255 : Int), 0, 0)
    ∧ flushCount ((init 10 255).color_wipe (255, 0, 0)).strip.log = 10
    ∧ (st.color_wipe c).strip.log
        = st.strip.log ++ wipeTrace (List.range st.led_count) c
    ∧ flushCount (st.color_wipe c).strip.log
        = flushCount st.strip.log + st.led_count
    ∧ ∀ i, i < st.led_count →
        (st.color_wipe c).strip.pixels[i]? = some c := by
  have haux := wipe_aux c st.led_count (List.range st.led_count)
    (fun i hi => List.mem_range.mp hi) st rfl
  refine ⟨by decide, by decide, haux.1, ?_, fun i hi => ?_⟩
  · have h1 : (st.color_wipe c).strip.log
        = st.strip.log ++ wipeTrace (List.range st.led_count) c := haux.1
    rw [h1, flushCount_append, flushCount_wipeTrace, List.length_range]
  · have h2 : (st.color_wipe c).strip.pixels
        = (List.range st.led_count).foldl (fun p i => p.set i c)
            st.strip.pixels := haux.2.1
    rw [h2, range_foldl_set_getElem, if_pos ⟨hi, by omega⟩]

/-- Witness for `color_wipe_spec` on the concrete 10-LED controller. -/
theorem color_wipe_spec_witness :
    ((init 10 255).color_wipe (255, 0, 0)).strip.log
      = (init 10 255).strip.log
        ++ wipeTrace (List.range (init 10 255).led_count) (255, 0, 0) :=
  (color_wipe_spec (init 10 255) (255, 0, 0) (by decide)).2.2.1

/-- C8 counterexample: `breathing_effect` does not leave the brightness
scalar unchanged: starting from brightness 128 it returns with
brightness 255. -/
theorem breathing_effect_changes_brightness :
    (init 1 128).brightness = 128
    ∧ ((init 1 128).breathing_effect (10, 0, 0) 1).brightness = 255
    ∧ ((255 : Int) ≠ 128) := by
  decide

/-- C8 (amended): `color_wipe`, `theater_chase`, `rainbow`,
`rainbow_cycle`, `random_colors` and the alternating-colors routine
(`police_lights`) leave every controller field other than the pixel
buffer — LED count, brightness scalar and strip brightness register —
unchanged; `breathing_effect` leaves the LED count unchanged but always
resets the brightness scalar (and the strip register) to 255, regardless
of the brightness it started from. -/
theorem animations_state (st : WS2812Controller) (c : Color)
    (it frames cy : Nat) (rand : Nat → Nat → Color) :
    sameCore st (st.color_wipe c)
    ∧ sameCore st (st.theater_chase c it)
    ∧ sameCore st (st.rainbow it)
    ∧ sameCore st (st.rainbow_cycle it)
    ∧ sameCore st (st.random_colors frames rand)
    ∧ sameCore st (st.police_lights frames)
    ∧ (st.breathing_effect c cy).led_count = st.led_count
    ∧ (st.breathing_effect c cy).brightness = 255
    ∧ (st.breathing_effect c cy).strip.stripBrightness = 255 :=
  ⟨color_wipe_sameCore st c, theater_chase_sameCore st c it,
   rainbow_sameCore st it, rainbow_cycle_sameCore st it,
   random_colors_sameCore st frames rand, police_lights_sameCore st frames,
   (breathing_effect_core st c cy).1, (breathing_effect_core st c cy).2.1,
   (breathing_effect_core st c cy).2.2⟩

/-- C9: every write the facade issues to the underlying strip uses a
pixel index in `[0, led_count)`: starting from a trace all of whose
writes are in range, every facade operation — `set_pixel`,
`set_all_pixels`, `clear`, `show`, `set_brightness`, `color_wipe`,
`theater_chase`, `rainbow`, `rainbow_cycle`, `breathing_effect`,
`random_colors` and `police_lights` — leaves the trace with all writes
in range. In particular `theater_chase`, whose candidate indices `i + q`
reach `led_count` and `led_count + 1` (shown concretely for a 10-LED
strip), never causes an out-of-range write, because its writes pass
through the `set_pixel` bounds guard. -/
theorem facade_writes_in_range (st : WS2812Controller) (c : Color)
    (i b : Int) (it frames cy : Nat) (rand : Nat → Nat → Color)
    (h : logSafe st.led_count st.strip.log) :
    logSafe st.led_count (st.set_pixel i c).strip.log
    ∧ logSafe st.led_count (st.set_all_pixels c).strip.log
    ∧ logSafe st.led_count st.clear.strip.log
    ∧ logSafe st.led_count st.show'.strip.log
    ∧ logSafe st.led_count (st.set_brightness b).strip.log
    ∧ logSafe st.led_count (st.color_wipe c).strip.log
    ∧ logSafe st.led_count (st.theater_chase c it).strip.log
    ∧ logSafe st.led_count (st.rainbow it).strip.log
    ∧ logSafe st.led_count (st.rainbow_cycle it).strip.log
    ∧ logSafe st.led_count (st.breathing_effect c cy).strip.log
    ∧ logSafe st.led_count (st.random_colors frames rand).strip.log
    ∧ logSafe st.led_count (st.police_lights frames).strip.log
    ∧ (10 : Nat) ∈ (range3 10).map (fun k => k + 1)
    ∧ (11 : Nat) ∈ (range3 10).map (fun k => k + 2) := by
  have h0 : chaseInv st.led_count st := ⟨rfl, h⟩
  exact ⟨(set_pixel_chaseInv h0 i c).2,
    (set_all_pixels_chaseInv h0 c).2,
    (stripShow_chaseInv (set_all_pixels_chaseInv h0 (0, 0, 0))).2,
    (stripShow_chaseInv h0).2,
    (set_brightness_chaseInv h0 b).2,
    (color_wipe_chaseInv h0 c).2,
    (theater_chase_chaseInv h0 c it).2,
    (rainbow_chaseInv h0 it).2,
    (rainbow_cycle_chaseInv h0 it).2,
    (breathing_effect_chaseInv h0 c cy).2,
    (random_colors_chaseInv h0 frames rand).2,
    (police_lights_chaseInv h0 frames).2,
    by decide, by decide⟩

/-- Witness for `facade_writes_in_range` on the concrete 10-LED
controller, whose initial trace is empty. -/
theorem facade_writes_in_range_witness :
    logSafe (init 10 255).led_count
      ((init 10 255).set_pixel 3 (255, 255, 255)).strip.log
    ∧ logSafe (init 10 255).led_count
        ((init 10 255).set_all_pixels (255, 255, 255)).strip.log
    ∧ logSafe (init 10 255).led_count (init 10 255).clear.strip.log
    ∧ logSafe (init 10 255).led_count (init 10 255).show'.strip.log
    ∧ logSafe (init 10 255).led_count
        ((init 10 255).set_brightness 5).strip.log
    ∧ logSafe (init 10 255).led_count
        ((init 10 255).color_wipe (255, 255, 255)).strip.log
    ∧ logSafe (init 10 255).led_count
        ((init 10 255).theater_chase (255, 255, 255) 1).strip.log
    ∧ logSafe (init 10 255).led_count
        ((init 10 255).rainbow 1).strip.log
    ∧ logSafe (init 10 255).led_count
        ((init 10 255).rainbow_cycle 1).strip.log
    ∧ logSafe (init 10 255).led_count
        ((init 10 255).breathing_effect (255, 255, 255) 1).strip.log
    ∧ logSafe (init 10 255).led_count
        ((init 10 255).random_colors 1 (fun _ _ => (1, 2, 3))).strip.log
    ∧ logSafe (init 10 255).led_count
        ((init 10 255).police_lights 1).strip.log
    ∧ (10 : Nat) ∈ (range3 10).map (fun k => k + 1)
    ∧ (11 : Nat) ∈ (range3 10).map (fun k => k + 2) :=
  facade_writes_in_range (init 10 255) (255, 255, 255) 3 5 1 1 1
    (fun _ _ => (1, 2, 3))
    (fun e he => absurd he (List.not_mem_nil e))

/-- C10: for every position in `[0,255]` all three channels of the wheel
output lie in `[0,255]`, and the wheel arguments computed inside
`rainbow` and `rainbow_cycle` are masked with `& 255`, hence always lie
in `[0,255]`. -/
theorem wheel_output_byte_range (pos : Int) (h0 : 0 ≤ pos)
    (h1 : pos ≤ 255) :
    colorInRange (wheel pos)
    ∧ (∀ i j : Nat, rainbowPos i j ≤ 255)
    ∧ (∀ n i j : Nat, rainbowCyclePos n i j ≤ 255) := by
  refine ⟨?_, fun i j => Nat.and_le_right, fun n i j => Nat.and_le_right⟩
  unfold wheel
  split_ifs <;> (simp only [colorInRange]; omega)

/-- Witness for `wheel_output_byte_range` at position 0. -/
theorem wheel_output_byte_range_witness :
    colorInRange (wheel 0)
    ∧ (∀ i j : Nat, rainbowPos i j ≤ 255)
    ∧ (∀ n i j : Nat, rainbowCyclePos n i j ≤ 255) :=
  wheel_output_byte_range 0 (by decide) (by decide)

end WS2812Controller

end PiLedRacer
